import Mathlib

/-!
Shallow embedding of the CI/CD helper scripts of the repository
(azure_pipelines/pull_requests/pull_request_comment.py,
azure_pipelines/pull_requests/comment.py,
azure_pipelines/load_env/config.py,
azure_pipelines/setup_repo/setup_repo.py).

External effects are made explicit: the HTTP layer is a queue of
responses consumed in order, subprocess invocations are a queue of
success booleans, and every function returns the list of outward calls
it performed together with the log lines it emitted.  Python
exceptions that the code may raise and does not catch are modelled
with an Except result.
-/

/-- A JSON value, the shape of request and response bodies. -/
inductive Json where
  | null : Json
  | bool (b : Bool) : Json
  | num (n : Int) : Json
  | str (s : String) : Json
  | arr (elems : List Json) : Json
  | obj (fields : List (String × Json)) : Json

/-- Lookup of a key in a JSON object field list (Python dict access). -/
def findKey (fields : List (String × Json)) (key : String) : Option Json :=
  match fields with
  | [] => none
  | (k, v) :: rest => if k == key then some v else findKey rest key

mutual

/-- Rendering of a JSON value the way Python repr renders the parsed value. -/
def Json.py_repr : Json → String
  | .null => "None"
  | .bool true => "True"
  | .bool false => "False"
  | .num n => toString n
  | .str s => "\x27" ++ s ++ "\x27"
  | .arr xs => "[" ++ Json.py_repr_items xs ++ "]"
  | .obj fs => "\x7b" ++ Json.py_repr_fields fs ++ "\x7d"

/-- Comma-separated rendering of list items. -/
def Json.py_repr_items : List Json → String
  | [] => ""
  | [x] => Json.py_repr x
  | x :: rest => Json.py_repr x ++ ", " ++ Json.py_repr_items rest

/-- Comma-separated rendering of object entries. -/
def Json.py_repr_fields : List (String × Json) → String
  | [] => ""
  | [(k, v)] => "\x27" ++ k ++ "\x27: " ++ Json.py_repr v
  | (k, v) :: rest =>
    "\x27" ++ k ++ "\x27: " ++ Json.py_repr v ++ ", " ++ Json.py_repr_fields rest

end

/-- Rendering of a JSON value the way a Python f-string renders it (str()). -/
def Json.py_string : Json → String
  | .str s => s
  | j => Json.py_repr j

/-- Python truthiness test on a parsed JSON value. -/
def Json.is_falsy : Json → Bool
  | .null => true
  | .bool b => !b
  | .num n => n == 0
  | .str s => s == ""
  | .arr xs => xs.isEmpty
  | .obj fs => fs.isEmpty

/-- Python `not x` on an attribute that is either None or a JSON value. -/
def opt_falsy : Option Json → Bool
  | none => true
  | some j => j.is_falsy

/-- The Python exceptions the scripts can raise without catching them. -/
inductive PyError where
  | valueError
  | keyError
  | typeError
  | attributeError
deriving Repr, DecidableEq

/-- Result of indexing response.json() with a string key, Python semantics:
ValueError when the body is not valid JSON, KeyError when the object lacks
the key, TypeError when the value is not an object. -/
def json_index (body : Option Json) (key : String) : Except PyError Json :=
  match body with
  | none => .error .valueError
  | some (Json.obj fields) =>
    match findKey fields key with
    | some v => .ok v
    | none => .error .keyError
  | some _ => .error .typeError

/-- An HTTP response as the requests library presents it; body = none means
that response.json() raises ValueError. -/
structure HttpResponse where
  status_code : Nat := 0
  reason : String := ""
  text : String := ""
  body : Option Json := none

/-- HTTP request method used by the scripts. -/
inductive HttpMethod where
  | get
  | post
deriving Repr, DecidableEq

/-- Payload of an outgoing request. -/
inductive Body where
  | json_body (j : Json)
  | file_body (path : String)

/-- One outward call performed by a script: an HTTP request or a git
subprocess invocation. -/
inductive Call where
  | http (method : HttpMethod) (url : String) (body : Option Body)
  | git (args : List String)

/-- The external world: the queue of HTTP responses the network will return,
in order, and the queue of subprocess outcomes (true = exit code 0). -/
structure World where
  http : List HttpResponse := []
  git : List Bool := []

/-- The response the next HTTP call receives. -/
def World.next_resp (w : World) : HttpResponse :=
  match w.http with
  | [] => {}
  | r :: _ => r

/-- The world after one HTTP call. -/
def World.drop_resp (w : World) : World :=
  { w with http := w.http.tail }

/-- The outcome the next subprocess call receives. -/
def World.next_git (w : World) : Bool :=
  match w.git with
  | [] => false
  | b :: _ => b

/-- The world after one subprocess call. -/
def World.drop_git (w : World) : World :=
  { w with git := w.git.tail }

/-- A log line with its level. -/
structure LogEntry where
  level : String
  message : String
deriving Repr, DecidableEq

/-- logger.info line. -/
def info_log (m : String) : LogEntry := ⟨"INFO", m⟩

/-- logger.error line. -/
def error_log (m : String) : LogEntry := ⟨"ERROR", m⟩

/-- logger.warning line. -/
def warn_log (m : String) : LogEntry := ⟨"WARNING", m⟩

/-- Rendering of an optional environment variable inside an f-string:
os.getenv returns None when unset and Python prints it as None. -/
def py_fstr : Option String → String
  | none => "None"
  | some s => s

/-- API version constant of pull_request_comment.py. -/
def API_VERSION : String := "7.1"

/-- The environment variables read by Message.__init__. -/
structure MsgEnv where
  system_accesstoken : Option String := none
  system_collectionuri : Option String := none
  system_pullrequest_pullrequestid : Option String := none
  system_teamproject : Option String := none
  build_repository_id : Option String := none
  build_sourceversion : Option String := none

/-- The Message object of pull_request_comment.py after __init__. -/
structure Message where
  token : Option String
  commit_sha_short : String
  base_url : String

/-- Message.__init__: reads the environment and builds the base URL; the
field commit_sha_short embeds commit_sha_prefix of the source. -/
def Message.mk_from_env (env : MsgEnv) : Message :=
  let source_version := env.build_sourceversion.getD ("")
  { token := env.system_accesstoken
    commit_sha_short := if source_version == "" then "" else source_version.take 5
    base_url :=
      py_fstr env.system_collectionuri ++ py_fstr env.system_teamproject ++
        "/_apis/git/repositories/" ++ py_fstr env.build_repository_id ++
        "/pullRequests/" ++ py_fstr env.system_pullrequest_pullrequestid }

/-- Result of a Message method that cannot raise: the returned boolean, the
remaining world, the calls performed and the log lines emitted. -/
structure MsgOut where
  ret : Bool
  world : World
  calls : List Call
  logs : List LogEntry

/-- The JSON body Message.add_msg posts for a given comment string. -/
def comment_thread_data (comment : String) : Json :=
  Json.obj
    [("comments", Json.arr [Json.obj
        [("parentCommentId", Json.num 1), ("content", Json.str comment),
         ("commentType", Json.num 1)]]),
     ("status", Json.num 1)]

/-- Message.add_msg: posts a single comment thread and reports success
exactly when the HTTP status is 200. -/
def Message.add_msg (m : Message) (comment : String) (w : World) : MsgOut :=
  let data := comment_thread_data comment
  let msg_url := m.base_url ++ "/threads?api-version=" ++ API_VERSION
  let resp := w.next_resp
  { ret := resp.status_code == 200
    world := w.drop_resp
    calls := [Call.http .post msg_url (some (Body.json_body data))]
    logs := [info_log ("Sending PR comment to: " ++ msg_url),
      info_log ("Response Code: " ++ toString resp.status_code ++
        ", Response Reason: " ++ resp.reason)] }

/-- Path.is_file test against a modelled file system (paths that exist). -/
def is_file (fs : List String) (path : String) : Bool :=
  fs.contains path

/-- Result of a Message method that may raise: the Except result, the
remaining world, the calls performed and the log lines emitted. -/
structure MsgStep (α : Type) where
  res : Except PyError α
  world : World
  calls : List Call
  logs : List LogEntry

/-- Message.upload_attachment_and_comment: returns false without any call
when the file is missing; uploads the file; on HTTP 201 posts two follow-up
comments built from the url field of the response body and returns true
regardless of their outcome; on any other status returns false. -/
def Message.upload_attachment_and_comment (m : Message) (fs : List String)
    (file_path : String) (w : World) : MsgStep Bool :=
  if is_file fs file_path then
    let file_name := "diagram-" ++ m.commit_sha_short ++ ".png"
    let attachment_url :=
      m.base_url ++ "/attachments/" ++ file_name ++ "?api-version=" ++ API_VERSION
    let resp := w.next_resp
    let w1 := w.drop_resp
    let call := Call.http .post attachment_url (some (Body.file_body file_path))
    let logs1 := [info_log ("Uploading attachment: " ++ file_name ++ " to " ++ attachment_url),
      info_log ("Response Code: " ++ toString resp.status_code ++
        ", Response Reason: " ++ resp.reason)]
    if resp.status_code == 201 then
      match resp.body with
      | none =>
        { res := .error .valueError, world := w1, calls := [call],
          logs := logs1 ++ [info_log ("File uploaded successfully")] }
      | some (Json.obj fields) =>
        let attachment_ref := ((findKey fields "url").getD Json.null).py_string
        let r1 := m.add_msg ("[Architecture Diagram](" ++ attachment_ref ++ ")") w1
        let r2 := m.add_msg ("<img src=\"" ++ attachment_ref ++
          "\" alt=\"Architecture Diagram\">") r1.world
        { res := .ok true, world := r2.world, calls := call :: (r1.calls ++ r2.calls),
          logs := logs1 ++ [info_log ("File uploaded successfully")] ++ r1.logs ++ r2.logs }
      | some _ =>
        { res := .error .attributeError, world := w1, calls := [call],
          logs := logs1 ++ [info_log ("File uploaded successfully")] }
    else
      { res := .ok false, world := w1, calls := [call],
        logs := logs1 ++ [error_log ("Failed to upload file. Response: " ++ resp.text)] }
  else
    { res := .ok false, world := w, calls := [],
      logs := [error_log ("File does not exist: " ++ file_path)] }

/-- A parsed tabular report file, as pandas presents it: whether the table
is empty and its markdown rendering. -/
structure Df where
  empty : Bool
  markdown : String

/-- A CSV file of the templates directory; parse = none models read_csv
raising an exception on that file. -/
structure ReportFile where
  name : String
  parse : Option Df

/-- The loop body of add_validation_reports over the discovered CSV files. -/
def add_validation_reports_loop (msg : Message) (files : List ReportFile)
    (w : World) : World × List Call × List LogEntry :=
  match files with
  | [] => (w, [], [])
  | f :: rest =>
    match f.parse with
    | none =>
      let r := add_validation_reports_loop msg rest w
      (r.1, r.2.1, error_log ("Error processing CSV file " ++ f.name) :: r.2.2)
    | some df =>
      if df.empty then add_validation_reports_loop msg rest w
      else
        let c := msg.add_msg df.markdown w
        let fail_logs :=
          if c.ret then [] else [error_log ("Failed to add validation report from " ++ f.name)]
        let r := add_validation_reports_loop msg rest c.world
        (r.1, c.calls ++ r.2.1,
          info_log ("Adding CDK Validation report from " ++ f.name) ::
            (c.logs ++ fail_logs ++ r.2.2))

/-- add_validation_reports of comment.py: no-op when the directory is
absent; otherwise posts one comment per non-empty parsed table, isolating
per-file errors. -/
def add_validation_reports (msg : Message) (dir_exists : Bool)
    (files : List ReportFile) (w : World) : World × List Call × List LogEntry :=
  if dir_exists then add_validation_reports_loop msg files w
  else (w, [], [warn_log ("Templates directory not found")])

/-- The errors CDKConfig.load_config catches, logs and re-raises. -/
inductive ConfigError where
  | file_not_found
  | json_decode_error
deriving Repr, DecidableEq

/-- CDKConfig.load_config: reads config/{environment}.json through a file
system oracle; fs path = none models a missing file (FileNotFoundError),
some none a file whose content json.load rejects (JSONDecodeError), and
some (some j) a file parsing to j. The error is logged and re-raised. -/
def CDKConfig.load_config (fs : String → Option (Option Json))
    (environment : String) : Except ConfigError Json × List LogEntry :=
  match fs ("config/" ++ environment ++ ".json") with
  | none =>
    (.error .file_not_found, [error_log ("Failed to load config file: FileNotFoundError")])
  | some none =>
    (.error .json_decode_error, [error_log ("Failed to load config file: JSONDecodeError")])
  | some (some j) => (.ok j, [])

mutual

/-- Structural equality of JSON values (Python == on parsed JSON). -/
def Json.beq : Json → Json → Bool
  | .null, .null => true
  | .bool a, .bool b => a == b
  | .num a, .num b => a == b
  | .str a, .str b => a == b
  | .arr a, .arr b => Json.beq_items a b
  | .obj a, .obj b => Json.beq_fields a b
  | _, _ => false

/-- Pointwise equality of JSON lists. -/
def Json.beq_items : List Json → List Json → Bool
  | [], [] => true
  | a :: as_, b :: bs => Json.beq a b && Json.beq_items as_ bs
  | _, _ => false

/-- Pointwise equality of JSON object field lists. -/
def Json.beq_fields : List (String × Json) → List (String × Json) → Bool
  | [], [] => true
  | (ka, va) :: as_, (kb, vb) :: bs =>
    ka == kb && Json.beq va vb && Json.beq_fields as_ bs
  | _, _ => false

end

instance : BEq Json := ⟨Json.beq⟩

/-- Whether the first character list begins the second. -/
def lead_match : List Char → List Char → Bool
  | [], _ => true
  | _ :: _, [] => false
  | a :: as_, b :: bs => a == b && lead_match as_ bs

/-- Whether the first character list occurs contiguously in the second. -/
def has_sub (needle : List Char) : List Char → Bool
  | [] => lead_match needle []
  | c :: rest => lead_match needle (c :: rest) || has_sub needle rest

/-- Python substring test: needle in hay for strings. -/
def py_in (needle hay : String) : Bool :=
  has_sub needle.data hay.data

/-- Azure API version of setup_repo.py. -/
def azure_api_version : String := "7.0"

/-- Fixed parent project id of setup_repo.py. -/
def parent_project_id : String := "<PROJECT_ID>"

/-- Fixed source project name of setup_repo.py. -/
def source_project_name : String := "<PROJECT_NAME>"

/-- Fixed organization of setup_repo.py. -/
def organization : String := "<ORGANIZATION>"

/-- The three pipeline stage names, in order. -/
def pipeline_stages : List String := ["development", "pull-request", "release"]

/-- The mutable attributes of a CreateAzureRepo instance. -/
structure CreateAzureRepo where
  new_repo_name : String
  new_repository_id : Option Json := none
  cicd_pull_request_id : Option Json := none

/-- Result of a CreateAzureRepo method: Except result (error = uncaught
Python exception), updated instance, remaining world, calls and logs. -/
structure RepoOut (α : Type) where
  res : Except PyError α
  state : CreateAzureRepo
  world : World
  calls : List Call
  logs : List LogEntry

/-- URL of the repository-creation POST. -/
def repo_create_url : String :=
  "https://dev.azure.com/" ++ organization ++
    "/_apis/git/repositories?api-version=" ++ azure_api_version

/-- URL of the GET that looks an existing repository up by name. -/
def repo_lookup_url (new_repo_name : String) : String :=
  "https://dev.azure.com/" ++ organization ++ "/" ++ parent_project_id ++
    "/_apis/git/repositories/" ++ new_repo_name ++ "?api-version=" ++ azure_api_version

/-- JSON body of the repository-creation POST. -/
def repo_create_body (new_repo_name : String) : Json :=
  Json.obj [("name", Json.str new_repo_name),
    ("project", Json.obj [("id", Json.str parent_project_id)])]

/-- CreateAzureRepo._get_existing_repo_id: GET by name; on 200 stores the id
field, catching KeyError and ValueError; on any other status returns false. -/
def CreateAzureRepo.get_existing_repo_id (st : CreateAzureRepo) (w : World) :
    RepoOut Bool :=
  let resp := w.next_resp
  let w1 := w.drop_resp
  let call := Call.http .get (repo_lookup_url st.new_repo_name) none
  if resp.status_code == 200 then
    match resp.body with
    | none =>
      { res := .ok false, state := st, world := w1, calls := [call],
        logs := [error_log ("Error parsing repository data: ValueError")] }
    | some (Json.obj fields) =>
      match findKey fields "id" with
      | some v =>
        { res := .ok true, state := { st with new_repository_id := some v },
          world := w1, calls := [call], logs := [] }
      | none =>
        { res := .ok false, state := st, world := w1, calls := [call],
          logs := [error_log ("Error parsing repository data: KeyError")] }
    | some _ =>
      { res := .error .typeError, state := st, world := w1, calls := [call], logs := [] }
  else
    { res := .ok false, state := st, world := w1, calls := [call],
      logs := [error_log ("Failed to retrieve repository: " ++
        toString resp.status_code ++ " - " ++ resp.reason)] }

/-- CreateAzureRepo.create_azure_devops_repo: POST create; 201 stores the id
of the response body and returns true; 409 falls back to the lookup by name;
any other status returns false. -/
def CreateAzureRepo.create_azure_devops_repo (st : CreateAzureRepo) (w : World) :
    RepoOut Bool :=
  let resp := w.next_resp
  let w1 := w.drop_resp
  let call := Call.http .post repo_create_url
    (some (Body.json_body (repo_create_body st.new_repo_name)))
  let logs0 := [info_log ("Creating new Azure repository: " ++ st.new_repo_name)]
  if resp.status_code == 201 then
    let logs1 := logs0 ++ [info_log ("Repository created successfully")]
    match json_index resp.body "id" with
    | .ok v =>
      { res := .ok true, state := { st with new_repository_id := some v },
        world := w1, calls := [call], logs := logs1 }
    | .error e =>
      { res := .error e, state := st, world := w1, calls := [call], logs := logs1 }
  else if resp.status_code == 409 then
    let sub := st.get_existing_repo_id w1
    { res := sub.res, state := sub.state, world := sub.world,
      calls := call :: sub.calls,
      logs := logs0 ++ [info_log ("Repository already exists, retrieving ID")] ++ sub.logs }
  else
    { res := .ok false, state := st, world := w1, calls := [call],
      logs := logs0 ++ [error_log ("Failed to create repository: " ++
        toString resp.status_code ++ " - " ++ resp.reason)] }

/-- URL of the pipeline-creation POST (parent project). -/
def pipeline_post_url : String :=
  "https://dev.azure.com/" ++ organization ++ "/" ++ parent_project_id ++
    "/_apis/pipelines?api-version=" ++ azure_api_version

/-- URL of the pipeline GET search (source project). -/
def pipeline_search_url : String :=
  "https://dev.azure.com/" ++ organization ++ "/" ++ source_project_name ++
    "/_apis/pipelines?api-version=" ++ azure_api_version

/-- The pipeline definition path for a stage. -/
def stage_path (stage : String) : String :=
  if stage == "development" then "/azure-pipelines.yml"
  else "/azure-pipelines-" ++ stage ++ ".yml"

/-- JSON body of the pipeline-creation POST for a stage. -/
def pipeline_body (st : CreateAzureRepo) (stage path : String) : Json :=
  Json.obj [("name", Json.str (st.new_repo_name ++ "-" ++ stage)),
    ("configuration", Json.obj [("path", Json.str path),
      ("repository", Json.obj [("id", st.new_repository_id.getD Json.null),
        ("name", Json.str st.new_repo_name), ("type", Json.str ("azureReposGit"))]),
      ("type", Json.str ("yaml"))]),
    ("folder", Json.str ("\\" ++ st.new_repo_name))]

/-- Python iteration over a JSON value: lists yield elements, strings yield
one-character strings, dicts yield their keys, anything else raises
TypeError. -/
def iter_elems : Json → Except PyError (List Json)
  | Json.arr xs => .ok xs
  | Json.str s => .ok (s.data.map (fun c => Json.str (String.mk [c])))
  | Json.obj fields => .ok (fields.map (fun kv => Json.str kv.1))
  | _ => .error .typeError

/-- Python membership test of a string in a JSON value: substring for
strings, element for lists, key for dicts, TypeError otherwise. -/
def py_in_json (needle : String) : Json → Except PyError Bool
  | Json.str hay => .ok (py_in needle hay)
  | Json.arr xs => .ok (xs.contains (Json.str needle))
  | Json.obj fields => .ok (fields.any (fun kv => kv.1 == needle))
  | _ => .error .typeError

/-- The scan of the pipeline search results: the first entry whose name
contains both the repository name and pull-request yields its id; a missing
id key raises KeyError (caught by the caller); a pipeline entry that is not
an object raises AttributeError at pipeline.get. -/
def scan_pipelines (st : CreateAzureRepo) : List Json → Except PyError (Option Json)
  | [] => .ok none
  | p :: rest =>
    match p with
    | Json.obj fields =>
      let name := (findKey fields "name").getD (Json.str (""))
      match py_in_json st.new_repo_name name with
      | .error e => .error e
      | .ok false => scan_pipelines st rest
      | .ok true =>
        match py_in_json ("pull-request") name with
        | .error e => .error e
        | .ok false => scan_pipelines st rest
        | .ok true =>
          match findKey fields "id" with
          | some v => .ok (some v)
          | none => .error .keyError
    | _ => .error .attributeError

/-- CreateAzureRepo._handle_pull_request_pipeline: takes the id from the
creation response; on KeyError or ValueError falls back to a GET search of
the source project for a pipeline whose name contains the repository name
and pull-request. -/
def CreateAzureRepo.handle_pull_request_pipeline (st : CreateAzureRepo)
    (resp : HttpResponse) (w : World) : RepoOut Unit :=
  match json_index resp.body "id" with
  | .ok v =>
    { res := .ok (), state := { st with cicd_pull_request_id := some v },
      world := w, calls := [], logs := [] }
  | .error .typeError =>
    { res := .error .typeError, state := st, world := w, calls := [], logs := [] }
  | .error _ =>
    let logs0 := [error_log ("Pipeline " ++ st.new_repo_name ++
      "-pull-request already exists. Searching for its ID...")]
    let sresp := w.next_resp
    let w1 := w.drop_resp
    let call := Call.http .get pipeline_search_url none
    if sresp.status_code != 200 then
      { res := .ok (), state := st, world := w1, calls := [call],
        logs := logs0 ++ [error_log ("Failed to retrieve pipelines: " ++
          toString sresp.status_code)] }
    else
      match sresp.body with
      | none =>
        { res := .ok (), state := st, world := w1, calls := [call],
          logs := logs0 ++ [error_log ("Error parsing pipeline data: ValueError")] }
      | some (Json.obj sfields) =>
        match iter_elems ((findKey sfields "value").getD (Json.arr [])) with
        | .error e =>
          { res := .error e, state := st, world := w1, calls := [call], logs := logs0 }
        | .ok elems =>
          match scan_pipelines st elems with
          | .ok (some v) =>
            { res := .ok (), state := { st with cicd_pull_request_id := some v },
              world := w1, calls := [call],
              logs := logs0 ++ [info_log ("Found ID for " ++ st.new_repo_name ++
                "-pull-request")] }
          | .ok none =>
            { res := .ok (), state := st, world := w1, calls := [call], logs := logs0 }
          | .error .keyError =>
            { res := .ok (), state := st, world := w1, calls := [call],
              logs := logs0 ++ [error_log ("Error parsing pipeline data: KeyError")] }
          | .error e =>
            { res := .error e, state := st, world := w1, calls := [call], logs := logs0 }
      | some _ =>
        { res := .error .attributeError, state := st, world := w1,
          calls := [call], logs := logs0 }

/-- One iteration of the create_pipelines loop: POST the stage pipeline,
run the pull-request handler when applicable, then log the outcome. -/
def CreateAzureRepo.pipeline_stage_step (st : CreateAzureRepo) (stage : String)
    (w : World) : RepoOut Unit :=
  let resp := w.next_resp
  let w1 := w.drop_resp
  let call := Call.http .post pipeline_post_url
    (some (Body.json_body (pipeline_body st stage (stage_path stage))))
  let after :=
    if stage == "pull-request" then st.handle_pull_request_pipeline resp w1
    else { res := .ok (), state := st, world := w1, calls := [], logs := [] }
  match after.res with
  | .error e =>
    { res := .error e, state := after.state, world := after.world,
      calls := call :: after.calls, logs := after.logs }
  | .ok _ =>
    { res := .ok (), state := after.state, world := after.world,
      calls := call :: after.calls,
      logs := after.logs ++
        [info_log ("Pipeline creation status: " ++ toString resp.status_code ++
          " - " ++ resp.reason)] ++
        (if resp.status_code == 200 then [info_log ("Pipeline creation succeeded")]
         else [error_log ("Pipeline creation failed or pipeline already exists")]) }

/-- The for loop of create_pipelines over the remaining stages. -/
def CreateAzureRepo.pipelines_loop (st : CreateAzureRepo) (stages : List String)
    (w : World) : RepoOut Unit :=
  match stages with
  | [] => { res := .ok (), state := st, world := w, calls := [], logs := [] }
  | stage :: rest =>
    let r := st.pipeline_stage_step stage w
    match r.res with
    | .error e =>
      { res := .error e, state := r.state, world := r.world,
        calls := r.calls, logs := r.logs }
    | .ok _ =>
      let r2 := CreateAzureRepo.pipelines_loop r.state rest r.world
      { res := r2.res, state := r2.state, world := r2.world,
        calls := r.calls ++ r2.calls, logs := r.logs ++ r2.logs }

/-- CreateAzureRepo.create_pipelines: requires a stored repository id, else
logs an error and returns with no call; otherwise creates the three stage
pipelines in order. -/
def CreateAzureRepo.create_pipelines (st : CreateAzureRepo) (w : World) :
    RepoOut Unit :=
  if opt_falsy st.new_repository_id then
    { res := .ok (), state := st, world := w, calls := [],
      logs := [error_log ("Repository ID not set. Create repository first.")] }
  else
    let r := st.pipelines_loop pipeline_stages w
    { res := r.res, state := r.state, world := r.world, calls := r.calls,
      logs := info_log ("Creating new Azure pipelines on repository: " ++
        st.new_repo_name) :: r.logs }

/-- Arguments of the git remote set-url subprocess call. -/
def git_remote_args (st : CreateAzureRepo) : List String :=
  ["git", "remote", "set-url", "origin",
   "git@ssh.dev.azure.com:v3/" ++ organization ++ "/" ++ source_project_name ++
     "/" ++ st.new_repo_name]

/-- Arguments of the git push subprocess call. -/
def git_push_args : List String := ["git", "push", "-u", "origin", "--all"]

/-- CreateAzureRepo.git_migrate: repoints the remote and pushes all
branches; a failing subprocess is caught and converted to false. -/
def CreateAzureRepo.git_migrate (st : CreateAzureRepo) (w : World) : RepoOut Bool :=
  let logs0 := [info_log ("Starting git migration")]
  let ok1 := w.next_git
  let w1 := w.drop_git
  let call1 := Call.git (git_remote_args st)
  if ok1 then
    let ok2 := w1.next_git
    let w2 := w1.drop_git
    if ok2 then
      { res := .ok true, state := st, world := w2, calls := [call1, Call.git git_push_args],
        logs := logs0 ++ [info_log ("Git migration completed successfully")] }
    else
      { res := .ok false, state := st, world := w2, calls := [call1, Call.git git_push_args],
        logs := logs0 ++ [error_log ("Git migration failed: SubprocessError")] }
  else
    { res := .ok false, state := st, world := w1, calls := [call1],
      logs := logs0 ++ [error_log ("Git migration failed: SubprocessError")] }

/-- URL of the branch-policy POST. -/
def policy_post_url : String :=
  "https://dev.azure.com/" ++ organization ++ "/" ++ source_project_name ++
    "/_apis/policy/configurations?api-version=" ++ azure_api_version

/-- JSON body of the branch-policy POST. -/
def policy_body (st : CreateAzureRepo) : Json :=
  Json.obj [("isEnabled", Json.bool true), ("isBlocking", Json.bool true),
    ("isDeleted", Json.bool false), ("isEnterpriseManaged", Json.bool false),
    ("type", Json.obj [("id", Json.str ("0609b952-1397-4640-95ec-e00a01b2c241"))]),
    ("settings", Json.obj
      [("buildDefinitionId", st.cicd_pull_request_id.getD Json.null),
       ("manualQueueOnly", Json.bool false), ("queueOnSourceUpdateOnly", Json.bool true),
       ("scope", Json.arr [Json.obj
         [("repositoryId", st.new_repository_id.getD Json.null),
          ("refName", Json.str ("refs/heads/master")),
          ("matchKind", Json.str ("exact"))]]),
       ("validDuration", Json.num 720)])]

/-- CreateAzureRepo.create_pull_request_policy: requires both stored ids,
else logs an error and returns false with no call; otherwise POSTs the
build-validation policy and returns whether the status is 200. -/
def CreateAzureRepo.create_pull_request_policy (st : CreateAzureRepo) (w : World) :
    RepoOut Bool :=
  if opt_falsy st.cicd_pull_request_id || opt_falsy st.new_repository_id then
    { res := .ok false, state := st, world := w, calls := [],
      logs := [error_log ("Missing required IDs for policy creation")] }
  else
    let resp := w.next_resp
    let w1 := w.drop_resp
    let call := Call.http .post policy_post_url (some (Body.json_body (policy_body st)))
    { res := .ok (resp.status_code == 200), state := st, world := w1, calls := [call],
      logs := [info_log ("Setting build validation policy for pull requests")] ++
        (if resp.status_code == 200 then
          [info_log ("Build validation policy created successfully")]
         else
          [error_log ("Failed to create build validation policy: " ++
            toString resp.status_code ++ " - " ++ resp.reason)]) }

/-- main of setup_repo.py: creates or finds the repository and, only when
that succeeded, runs pipeline creation, git migration and policy creation
in order, ignoring their individual outcomes. -/
def setup_repo_main (repository_name : String) (w : World) : RepoOut Unit :=
  let st : CreateAzureRepo := { new_repo_name := repository_name }
  let r1 := st.create_azure_devops_repo w
  match r1.res with
  | .error e =>
    { res := .error e, state := r1.state, world := r1.world,
      calls := r1.calls, logs := r1.logs }
  | .ok false =>
    { res := .ok (), state := r1.state, world := r1.world, calls := r1.calls,
      logs := r1.logs ++ [error_log ("Failed to create or find repository. Aborting.")] }
  | .ok true =>
    let r2 := r1.state.create_pipelines r1.world
    match r2.res with
    | .error e =>
      { res := .error e, state := r2.state, world := r2.world,
        calls := r1.calls ++ r2.calls, logs := r1.logs ++ r2.logs }
    | .ok _ =>
      let r3 := r2.state.git_migrate r2.world
      let r4 := r3.state.create_pull_request_policy r3.world
      { res := .ok (), state := r4.state, world := r4.world,
        calls := r1.calls ++ r2.calls ++ r3.calls ++ r4.calls,
        logs := r1.logs ++ r2.logs ++ r3.logs ++ r4.logs }

/-- A run of setup_repo_main in which repository creation succeeds (201)
but every pipeline-creation POST fails with 500; both git commands succeed
and the policy POST returns 200. -/
def c2_world : World :=
  { http := [{ status_code := 201, body := some (Json.obj [("id", Json.str ("repo1"))]) },
      { status_code := 500, body := some (Json.obj [("id", Json.num 7)]) },
      { status_code := 500, body := some (Json.obj [("id", Json.num 7)]) },
      { status_code := 500, body := some (Json.obj [("id", Json.num 7)]) },
      { status_code := 200 }],
    git := [true, true] }

/-- The session state of the c2_world run after stage 1. -/
def c2_repo_state : CreateAzureRepo :=
  { new_repo_name := "demo", new_repository_id := some (Json.str ("repo1")) }

/-- The session state of the c2_world run after the pull-request stage. -/
def c2_repo_state2 : CreateAzureRepo :=
  { c2_repo_state with cicd_pull_request_id := some (Json.num 7) }

/-- C1: for the environment SYSTEM_COLLECTIONURI = https://dev.azure.com/,
SYSTEM_TEAMPROJECT = fabrikam, BUILD_REPOSITORY_ID = abc,
SYSTEM_PULLREQUEST_PULLREQUESTID = 22, add_msg with comment hello issues
exactly one POST to the threads URL of that pull request with the
single-item comment-thread JSON body. -/
theorem add_msg_c1_exact_post (w : World) :
    ((Message.mk_from_env
        { system_collectionuri := some ("https://dev.azure.com/"),
          system_teamproject := some ("fabrikam"),
          build_repository_id := some ("abc"),
          system_pullrequest_pullrequestid := some ("22") }).add_msg ("hello") w).calls =
      [Call.http .post
        ("https://dev.azure.com/fabrikam/_apis/git/repositories/abc/pullRequests/22/threads?api-version=7.1")
        (some (Body.json_body (Json.obj
          [("comments", Json.arr [Json.obj
              [("parentCommentId", Json.num 1), ("content", Json.str ("hello")),
               ("commentType", Json.num 1)]]),
           ("status", Json.num 1)])))] := rfl

/-- C5: for every comment and every response at the head of the HTTP queue,
add_msg returns true exactly when the status code is 200, makes exactly one
call, and does not retry. -/
theorem add_msg_true_iff_200 (m : Message) (comment : String) (r : HttpResponse)
    (rest : List HttpResponse) (g : List Bool) :
    (m.add_msg comment { http := r :: rest, git := g }).ret = (r.status_code == 200) ∧
    (m.add_msg comment { http := r :: rest, git := g }).calls.length = 1 :=
  ⟨rfl, rfl⟩

/-- C4: create_pipelines with no stored repository id makes zero HTTP calls,
leaves the session unchanged and only logs an error; create_pull_request_policy
with either id missing returns false with zero HTTP calls and only an error
log. -/
theorem missing_ids_short_circuit (st : CreateAzureRepo) (w : World) :
    (st.new_repository_id = none →
      (st.create_pipelines w).calls = [] ∧
      (st.create_pipelines w).state = st ∧
      (st.create_pipelines w).world = w ∧
      (st.create_pipelines w).logs =
        [error_log ("Repository ID not set. Create repository first.")]) ∧
    (st.cicd_pull_request_id = none ∨ st.new_repository_id = none →
      (st.create_pull_request_policy w).res = .ok false ∧
      (st.create_pull_request_policy w).calls = [] ∧
      (st.create_pull_request_policy w).logs =
        [error_log ("Missing required IDs for policy creation")]) := by
  constructor
  · intro h
    simp [CreateAzureRepo.create_pipelines, h, opt_falsy]
  · intro h
    rcases h with h | h <;>
      simp [CreateAzureRepo.create_pull_request_policy, h, opt_falsy]

/-- C4 witness: a fresh session with neither id set short-circuits both
operations. -/
theorem missing_ids_short_circuit_witness :
    (({ new_repo_name := "demo" } : CreateAzureRepo).create_pipelines ({} : World)).calls = [] ∧
    (({ new_repo_name := "demo" } : CreateAzureRepo).create_pull_request_policy
      ({} : World)).res = .ok false ∧
    (({ new_repo_name := "demo" } : CreateAzureRepo).create_pull_request_policy
      ({} : World)).calls = [] :=
  ⟨((missing_ids_short_circuit _ _).1 rfl).1,
   ((missing_ids_short_circuit _ _).2 (Or.inl rfl)).1,
   ((missing_ids_short_circuit _ _).2 (Or.inl rfl)).2.1⟩

/-- C7: load_config reads config/E.json and fails with file_not_found
exactly when the file is absent and with json_decode_error exactly when its
content is not valid JSON; it succeeds exactly on a parseable file, and on
either error a log line is emitted. -/
theorem load_config_error_modes (fs : String → Option (Option Json))
    (environment : String) :
    ((CDKConfig.load_config fs environment).1 = .error .file_not_found ↔
      fs ("config/" ++ environment ++ ".json") = none) ∧
    ((CDKConfig.load_config fs environment).1 = .error .json_decode_error ↔
      fs ("config/" ++ environment ++ ".json") = some none) ∧
    (∀ j, (CDKConfig.load_config fs environment).1 = .ok j ↔
      fs ("config/" ++ environment ++ ".json") = some (some j)) ∧
    (∀ e, (CDKConfig.load_config fs environment).1 = .error e →
      (CDKConfig.load_config fs environment).2 ≠ []) := by
  rcases hfs : fs ("config/" ++ environment ++ ".json") with _ | ⟨_ | j⟩ <;>
    simp [CDKConfig.load_config, hfs]

/-- C7 witness: with no file present, loading raises the not-found error
and logs it. -/
theorem load_config_error_modes_witness :
    (CDKConfig.load_config (fun _ => none) ("prod")).1 =
      .error .file_not_found ∧
    (CDKConfig.load_config (fun _ => none) ("prod")).2 ≠ [] :=
  ⟨((load_config_error_modes _ _).1).mpr rfl,
   (load_config_error_modes (fun _ => none) ("prod")).2.2.2 _
     (((load_config_error_modes _ _).1).mpr rfl)⟩

/-- Helper: the calls of the report loop are one comment POST per file whose
table parses and is non-empty, independent of per-file errors. -/
theorem add_validation_reports_loop_calls (msg : Message) (files : List ReportFile) :
    ∀ w : World, (add_validation_reports_loop msg files w).2.1 =
      files.filterMap (fun f =>
        match f.parse with
        | none => none
        | some df =>
          if df.empty then none
          else some (Call.http .post (msg.base_url ++ "/threads?api-version=" ++ API_VERSION)
            (some (Body.json_body (comment_thread_data df.markdown))))) := by
  induction files with
  | nil => intro w; rfl
  | cons f rest ih =>
    intro w
    rcases hp : f.parse with _ | df
    · simp [add_validation_reports_loop, hp, ih]
    · rcases he : df.empty with _ | _ <;>
        simp [add_validation_reports_loop, hp, he, ih, Message.add_msg]

/-- C8: with the directory present, add_validation_reports posts exactly one
comment per file whose table parses non-empty: empty tables and files whose
parse raises produce no comment and do not block the remaining files; with
the directory absent it makes no call. -/
theorem validation_reports_comment_counts (msg : Message) (dir_exists : Bool)
    (files : List ReportFile) (w : World) :
    (add_validation_reports msg dir_exists files w).2.1 =
      (if dir_exists then
        files.filterMap (fun f =>
          match f.parse with
          | none => none
          | some df =>
            if df.empty then none
            else some (Call.http .post
              (msg.base_url ++ "/threads?api-version=" ++ API_VERSION)
              (some (Body.json_body (comment_thread_data df.markdown)))))
       else []) := by
  rcases dir_exists with _ | _
  · rfl
  · simp [add_validation_reports, add_validation_reports_loop_calls]

/-- C3: repository creation with a 201 response stores the id of the body
and returns true; with 409 it performs the GET lookup by name and stores the
id found there; with any other status it returns false, changes nothing and
performs only the one POST. -/
theorem create_repo_status_cases (st : CreateAzureRepo) (r : HttpResponse)
    (rest : List HttpResponse) (g : List Bool) :
    (∀ fields v, r.status_code = 201 → r.body = some (Json.obj fields) →
      findKey fields "id" = some v →
      (st.create_azure_devops_repo { http := r :: rest, git := g }).res = .ok true ∧
      (st.create_azure_devops_repo { http := r :: rest, git := g }).state.new_repository_id =
        some v) ∧
    (∀ r2 rest2 fields v, r.status_code = 409 → rest = r2 :: rest2 →
      r2.status_code = 200 → r2.body = some (Json.obj fields) →
      findKey fields "id" = some v →
      (st.create_azure_devops_repo { http := r :: rest, git := g }).res = .ok true ∧
      (st.create_azure_devops_repo { http := r :: rest, git := g }).state.new_repository_id =
        some v ∧
      (st.create_azure_devops_repo { http := r :: rest, git := g }).calls =
        [Call.http .post repo_create_url
          (some (Body.json_body (repo_create_body st.new_repo_name))),
         Call.http .get (repo_lookup_url st.new_repo_name) none]) ∧
    (r.status_code ≠ 201 → r.status_code ≠ 409 →
      (st.create_azure_devops_repo { http := r :: rest, git := g }).res = .ok false ∧
      (st.create_azure_devops_repo { http := r :: rest, git := g }).state = st ∧
      (st.create_azure_devops_repo { http := r :: rest, git := g }).calls =
        [Call.http .post repo_create_url
          (some (Body.json_body (repo_create_body st.new_repo_name)))]) := by
  refine ⟨?_, ?_, ?_⟩
  · intro fields v h201 hbody hid
    simp [CreateAzureRepo.create_azure_devops_repo, World.next_resp, World.drop_resp,
      json_index, h201, hbody, hid]
  · intro r2 rest2 fields v h409 hrest h200 hbody hid
    subst hrest
    simp [CreateAzureRepo.create_azure_devops_repo, CreateAzureRepo.get_existing_repo_id,
      World.next_resp, World.drop_resp, h409, h200, hbody, hid]
  · intro h1 h2
    simp [CreateAzureRepo.create_azure_devops_repo, World.next_resp, World.drop_resp, h1, h2]

/-- C3 witness: the three status cases at concrete responses. -/
theorem create_repo_status_cases_witness :
    (let st : CreateAzureRepo := { new_repo_name := "demo" }
     let w201 : World :=
       { http := [{ status_code := 201, body := some (Json.obj [("id", Json.str ("x"))]) }] }
     (st.create_azure_devops_repo w201).res = .ok true ∧
     (st.create_azure_devops_repo w201).state.new_repository_id = some (Json.str ("x"))) ∧
    (let st : CreateAzureRepo := { new_repo_name := "demo" }
     let w409 : World :=
       { http := [{ status_code := 409 },
           { status_code := 200, body := some (Json.obj [("id", Json.str ("y"))]) }] }
     (st.create_azure_devops_repo w409).res = .ok true ∧
     (st.create_azure_devops_repo w409).state.new_repository_id = some (Json.str ("y"))) ∧
    (let st : CreateAzureRepo := { new_repo_name := "demo" }
     let w500 : World := { http := [{ status_code := 500 }] }
     (st.create_azure_devops_repo w500).res = .ok false ∧
     (st.create_azure_devops_repo w500).state = st ∧
     (st.create_azure_devops_repo w500).calls.length = 1) := by
  refine ⟨(create_repo_status_cases _ _ _ _).1 _ (Json.str ("x")) rfl rfl rfl, ⟨?_, ?_⟩, ?_, ?_, ?_⟩
  · exact ((create_repo_status_cases { new_repo_name := "demo" } { status_code := 409 }
      [{ status_code := 200, body := some (Json.obj [("id", Json.str ("y"))]) }] []).2.1
      { status_code := 200, body := some (Json.obj [("id", Json.str ("y"))]) } []
      [("id", Json.str ("y"))] (Json.str ("y")) rfl rfl rfl rfl rfl).1
  · exact ((create_repo_status_cases { new_repo_name := "demo" } { status_code := 409 }
      [{ status_code := 200, body := some (Json.obj [("id", Json.str ("y"))]) }] []).2.1
      { status_code := 200, body := some (Json.obj [("id", Json.str ("y"))]) } []
      [("id", Json.str ("y"))] (Json.str ("y")) rfl rfl rfl rfl rfl).2.1
  · exact ((create_repo_status_cases _ _ _ _).2.2 (by decide) (by decide)).1
  · exact ((create_repo_status_cases _ _ _ _).2.2 (by decide) (by decide)).2.1
  · rw [((create_repo_status_cases _ _ _ _).2.2 (by decide) (by decide)).2.2]; rfl

/-- C10: after a 409 on creation, a failing lookup leaves the session
unchanged: a non-200 lookup status, an unparseable lookup body or a lookup
body without an id field all make create_azure_devops_repo return false with
new_repository_id still none. -/
theorem create_repo_409_lookup_failure (st : CreateAzureRepo) (r r2 : HttpResponse)
    (rest2 : List HttpResponse) (g : List Bool) :
    st.new_repository_id = none → r.status_code = 409 →
    ((r2.status_code ≠ 200 →
      (st.create_azure_devops_repo { http := r :: r2 :: rest2, git := g }).res = .ok false ∧
      (st.create_azure_devops_repo
        { http := r :: r2 :: rest2, git := g }).state.new_repository_id = none) ∧
     (r2.status_code = 200 → r2.body = none →
      (st.create_azure_devops_repo { http := r :: r2 :: rest2, git := g }).res = .ok false ∧
      (st.create_azure_devops_repo
        { http := r :: r2 :: rest2, git := g }).state.new_repository_id = none) ∧
     (∀ fields, r2.status_code = 200 → r2.body = some (Json.obj fields) →
      findKey fields "id" = none →
      (st.create_azure_devops_repo { http := r :: r2 :: rest2, git := g }).res = .ok false ∧
      (st.create_azure_devops_repo
        { http := r :: r2 :: rest2, git := g }).state.new_repository_id = none)) := by
  intro hnone h409
  refine ⟨?_, ?_, ?_⟩
  · intro h200
    simp [CreateAzureRepo.create_azure_devops_repo, CreateAzureRepo.get_existing_repo_id,
      World.next_resp, World.drop_resp, h409, h200, hnone]
  · intro h200 hbody
    simp [CreateAzureRepo.create_azure_devops_repo, CreateAzureRepo.get_existing_repo_id,
      World.next_resp, World.drop_resp, h409, h200, hbody, hnone]
  · intro fields h200 hbody hid
    simp [CreateAzureRepo.create_azure_devops_repo, CreateAzureRepo.get_existing_repo_id,
      World.next_resp, World.drop_resp, h409, h200, hbody, hid, hnone]

/-- C10 witness: the three lookup-failure cases at concrete responses. -/
theorem create_repo_409_lookup_failure_witness :
    (let st : CreateAzureRepo := { new_repo_name := "demo" }
     let w : World := { http := [{ status_code := 409 }, { status_code := 500 }] }
     (st.create_azure_devops_repo w).res = .ok false ∧
     (st.create_azure_devops_repo w).state.new_repository_id = none) ∧
    (let st : CreateAzureRepo := { new_repo_name := "demo" }
     let w : World := { http := [{ status_code := 409 }, { status_code := 200 }] }
     (st.create_azure_devops_repo w).res = .ok false ∧
     (st.create_azure_devops_repo w).state.new_repository_id = none) ∧
    (let st : CreateAzureRepo := { new_repo_name := "demo" }
     let w : World :=
       { http := [{ status_code := 409 },
           { status_code := 200, body := some (Json.obj [("name", Json.str ("demo"))]) }] }
     (st.create_azure_devops_repo w).res = .ok false ∧
     (st.create_azure_devops_repo w).state.new_repository_id = none) :=
  ⟨(create_repo_409_lookup_failure _ _ _ _ _ rfl rfl).1 (by decide),
   (create_repo_409_lookup_failure _ _ _ _ _ rfl rfl).2.1 rfl rfl,
   (create_repo_409_lookup_failure _ _ _ _ _ rfl rfl).2.2 _ rfl rfl rfl⟩

/-- C6: upload_attachment_and_comment returns false with zero calls when
the file is missing; on a non-201 upload status it returns false having
made only the upload POST; on a 201 upload with a JSON-object body it makes
exactly the upload POST plus two comment POSTs (a link and an inline image
reference built from the url field) and returns true, whatever the statuses
of those two comment posts. -/
theorem upload_attachment_cases (m : Message) (fs : List String) (p : String) :
    (∀ w : World, is_file fs p = false →
      (m.upload_attachment_and_comment fs p w).res = .ok false ∧
      (m.upload_attachment_and_comment fs p w).calls = []) ∧
    (∀ r rest g, is_file fs p = true → r.status_code ≠ 201 →
      (m.upload_attachment_and_comment fs p { http := r :: rest, git := g }).res =
        .ok false ∧
      (m.upload_attachment_and_comment fs p { http := r :: rest, git := g }).calls =
        [Call.http .post (m.base_url ++ "/attachments/" ++
          ("diagram-" ++ m.commit_sha_short ++ ".png") ++ "?api-version=" ++ API_VERSION)
          (some (Body.file_body p))]) ∧
    (∀ r rest g fields, is_file fs p = true → r.status_code = 201 →
      r.body = some (Json.obj fields) →
      (m.upload_attachment_and_comment fs p { http := r :: rest, git := g }).res =
        .ok true ∧
      (m.upload_attachment_and_comment fs p { http := r :: rest, git := g }).calls =
        [Call.http .post (m.base_url ++ "/attachments/" ++
           ("diagram-" ++ m.commit_sha_short ++ ".png") ++ "?api-version=" ++ API_VERSION)
           (some (Body.file_body p)),
         Call.http .post (m.base_url ++ "/threads?api-version=" ++ API_VERSION)
           (some (Body.json_body (comment_thread_data ("[Architecture Diagram](" ++
             ((findKey fields "url").getD Json.null).py_string ++ ")")))),
         Call.http .post (m.base_url ++ "/threads?api-version=" ++ API_VERSION)
           (some (Body.json_body (comment_thread_data ("<img src=\"" ++
             ((findKey fields "url").getD Json.null).py_string ++
             "\" alt=\"Architecture Diagram\">"))))]) := by
  refine ⟨?_, ?_, ?_⟩
  · intro w h
    simp [Message.upload_attachment_and_comment, h]
  · intro r rest g h h201
    simp [Message.upload_attachment_and_comment, h, h201, World.next_resp, World.drop_resp]
  · intro r rest g fields h h201 hbody
    simp [Message.upload_attachment_and_comment, Message.add_msg, h, h201, hbody,
      World.next_resp, World.drop_resp]

/-- C6 witness: the three cases at a concrete message and concrete
responses. -/
theorem upload_attachment_cases_witness :
    (let m := Message.mk_from_env { build_sourceversion := some ("abc") }
     (m.upload_attachment_and_comment [] ("d.png") ({} : World)).res = .ok false ∧
     (m.upload_attachment_and_comment [] ("d.png") ({} : World)).calls = []) ∧
    (let m := Message.mk_from_env { build_sourceversion := some ("abc") }
     let w : World := { http := [{ status_code := 400 }] }
     (m.upload_attachment_and_comment [("d.png")] ("d.png") w).res = .ok false ∧
     (m.upload_attachment_and_comment [("d.png")] ("d.png") w).calls.length = 1) ∧
    (let m := Message.mk_from_env { build_sourceversion := some ("abc") }
     let w : World :=
       { http := [{ status_code := 201, body := some (Json.obj [("url", Json.str ("u"))]) },
           { status_code := 500 }, { status_code := 500 }] }
     (m.upload_attachment_and_comment [("d.png")] ("d.png") w).res = .ok true ∧
     (m.upload_attachment_and_comment [("d.png")] ("d.png") w).calls.length = 3) := by
  refine ⟨(upload_attachment_cases _ _ _).1 _ rfl, ⟨?_, ?_⟩, ?_, ?_⟩
  · exact ((upload_attachment_cases _ [("d.png")] ("d.png")).2.1
      { status_code := 400 } [] [] rfl (by decide)).1
  · rw [((upload_attachment_cases _ [("d.png")] ("d.png")).2.1
      { status_code := 400 } [] [] rfl (by decide)).2]; rfl
  · exact ((upload_attachment_cases _ [("d.png")] ("d.png")).2.2
      { status_code := 201, body := some (Json.obj [("url", Json.str ("u"))]) }
      [{ status_code := 500 }, { status_code := 500 }] [] [("url", Json.str ("u"))]
      rfl rfl rfl).1
  · rw [((upload_attachment_cases _ [("d.png")] ("d.png")).2.2
      { status_code := 201, body := some (Json.obj [("url", Json.str ("u"))]) }
      [{ status_code := 500 }, { status_code := 500 }] [] [("url", Json.str ("u"))]
      rfl rfl rfl).2]; rfl

/-- C9: the uploaded attachment is always named diagram- followed by
commit_sha_short followed by .png, where commit_sha_short is the first five
characters of BUILD_SOURCEVERSION when that variable is set and non-empty,
and the empty string (giving diagram-.png) when it is unset or empty. -/
theorem attachment_name_from_sha (e : MsgEnv) (fs : List String) (p : String)
    (w : World) :
    (is_file fs p = true →
      ((Message.mk_from_env e).upload_attachment_and_comment fs p w).calls.head? =
        some (Call.http .post ((Message.mk_from_env e).base_url ++ "/attachments/" ++
          ("diagram-" ++ (Message.mk_from_env e).commit_sha_short ++ ".png") ++
          "?api-version=" ++ API_VERSION) (some (Body.file_body p)))) ∧
    (∀ s, e.build_sourceversion = some s → s ≠ "" →
      (Message.mk_from_env e).commit_sha_short = s.take 5) ∧
    (e.build_sourceversion = none ∨ e.build_sourceversion = some "" →
      (Message.mk_from_env e).commit_sha_short = "") := by
  refine ⟨?_, ?_, ?_⟩
  · intro hf
    simp only [Message.upload_attachment_and_comment, hf, if_true]
    split
    · split <;> rfl
    · rfl
  · intro s hs hne
    simp [Message.mk_from_env, hs, hne]
  · intro h
    rcases h with h | h <;> simp [Message.mk_from_env, h]

set_option maxHeartbeats 2000000 in
/-- C9 witness: a 11-character commit hash yields diagram-abcde.png and an
unset variable yields the empty short hash. -/
theorem attachment_name_from_sha_witness :
    ((Message.mk_from_env
        { build_sourceversion := some ("abcdef12345") }).upload_attachment_and_comment
        [("d.png")] ("d.png") ({} : World)).calls.head? =
      some (Call.http .post
        ("NoneNone/_apis/git/repositories/None/pullRequests/None/attachments/diagram-abcde.png?api-version=7.1")
        (some (Body.file_body ("d.png")))) ∧
    (Message.mk_from_env { build_sourceversion := some ("abcdef12345") }).commit_sha_short =
      "abcde" ∧
    (Message.mk_from_env ({} : MsgEnv)).commit_sha_short = "" :=
  ⟨(attachment_name_from_sha { build_sourceversion := some ("abcdef12345") }
     [("d.png")] ("d.png") ({} : World)).1 rfl,
   (attachment_name_from_sha { build_sourceversion := some ("abcdef12345") } [] ("")
     ({} : World)).2.1 _ rfl (by decide),
   (attachment_name_from_sha ({} : MsgEnv) [] ("") ({} : World)).2.2 (Or.inl rfl)⟩

set_option maxHeartbeats 2000000 in
/-- C2 counterexample: in the c2_world run every pipeline-creation POST of
stage two fails with status 500, yet the trace still contains the git
migration subprocess calls of stage three and the branch-policy POST of
stage four, so a failing stage does not prevent later stages from
performing external calls. -/
theorem setup_repo_gating_counterexample :
    c2_world.http.map HttpResponse.status_code = [201, 500, 500, 500, 200] ∧
    (setup_repo_main ("demo") c2_world).calls =
      [Call.http .post repo_create_url
         (some (Body.json_body (repo_create_body ("demo")))),
       Call.http .post pipeline_post_url (some (Body.json_body
         (pipeline_body c2_repo_state ("development") (stage_path ("development"))))),
       Call.http .post pipeline_post_url (some (Body.json_body
         (pipeline_body c2_repo_state ("pull-request") (stage_path ("pull-request"))))),
       Call.http .post pipeline_post_url (some (Body.json_body
         (pipeline_body c2_repo_state ("release") (stage_path ("release"))))),
       Call.git (git_remote_args c2_repo_state),
       Call.git git_push_args,
       Call.http .post policy_post_url
         (some (Body.json_body (policy_body c2_repo_state2)))] :=
  ⟨rfl, rfl⟩

/-- C2 amended: the four stages run in the stated order, but only stage one
gates the rest: when repository creation reports failure no later stage
performs any external call, while after a successful stage one the pipeline
stage, the git migration and the policy stage all run and contribute their
calls in order, regardless of the HTTP statuses each of them receives. -/
theorem setup_repo_gating_amended (name : String) (w : World) :
    (let r1 := CreateAzureRepo.create_azure_devops_repo { new_repo_name := name } w
     ((r1.res = .ok false → (setup_repo_main name w).calls = r1.calls) ∧
      (r1.res = .ok true →
        (let r2 := r1.state.create_pipelines r1.world
         ((∀ e, r2.res = .error e →
            (setup_repo_main name w).calls = r1.calls ++ r2.calls) ∧
          (r2.res = .ok () →
            (let r3 := r2.state.git_migrate r2.world
             (setup_repo_main name w).calls =
               r1.calls ++ r2.calls ++ r3.calls ++
                 (r3.state.create_pull_request_policy r3.world).calls))))))) := by
  dsimp only
  refine ⟨?_, ?_⟩
  · intro h
    simp only [setup_repo_main]
    rw [h]
  · intro h
    refine ⟨?_, ?_⟩
    · intro e he
      simp only [setup_repo_main]
      rw [h]
      dsimp only
      rw [he]
    · intro h2
      simp only [setup_repo_main]
      rw [h]
      dsimp only
      rw [h2]

set_option maxHeartbeats 2000000 in
/-- C2 amended witness: stage-one failure stops the run after one POST, and
in the c2_world run the trace is exactly the concatenation of the four
stage traces. -/
theorem setup_repo_gating_amended_witness :
    (setup_repo_main ("demo") { http := [{ status_code := 500 }] }).calls =
      (CreateAzureRepo.create_azure_devops_repo { new_repo_name := "demo" }
        { http := [{ status_code := 500 }] }).calls ∧
    (let r1 := CreateAzureRepo.create_azure_devops_repo { new_repo_name := "demo" } c2_world
     let r2 := r1.state.create_pipelines r1.world
     let r3 := r2.state.git_migrate r2.world
     (setup_repo_main ("demo") c2_world).calls =
       r1.calls ++ r2.calls ++ r3.calls ++
         (r3.state.create_pull_request_policy r3.world).calls) :=
  ⟨(setup_repo_gating_amended ("demo") { http := [{ status_code := 500 }] }).1 rfl,
   ((setup_repo_gating_amended ("demo") c2_world).2 rfl).2 rfl⟩
